import Mathlib

/-!
Verification of `coreference_matcher.py`: a shallow embedding of the
coreference recognition-and-resolution pipeline (query-context data model,
English phrase builder, rule-based English recognizer, pass-through
recognizer, multi-language orchestrator) together with theorems settling
the specification claims.

External collaborators (the spaCy lemma matcher and the pluralization
utility) are out of scope of the repository; they are modelled as an
explicit oracle (`Linguistics`) describing their behaviour on the single
utterance document that `recognize` builds from the original utterance.
-/

namespace CoreferenceMatcher

/-- `QueryContextItem`: an attribute name with its known values. -/
structure QueryContextItem where
  name : String
  values : List String

/-- `QueryContext`: entity name, surfaced items, primary-key fallback items
and an optional filter phrase (`get_entityName`, `get_items`,
`get_primaryKeyItems`, `get_filterPhrase` in the source). -/
structure QueryContext where
  entityName : String
  items : List QueryContextItem
  primaryKeyItems : List QueryContextItem
  filterPhrase : Option String

/-- `CoreferenceContext`: the four query-context roles, any possibly absent. -/
structure CoreferenceContext where
  singularPersonQueryContext : Option QueryContext
  singularObjectQueryContext : Option QueryContext
  pluralPersonQueryContext : Option QueryContext
  pluralObjectQueryContext : Option QueryContext

/-- Oracle for the external linguistic collaborators, fixed for one
`recognize` call (the source computes `self._utterance_doc` once from the
original utterance and all matching runs against that document):
`pluralize` is the inflection utility; `itemMatches n` tells whether the
matcher pattern `[-PRON-] ++ lemmas(n)` occurs in the utterance document
(used by `_prepare_dialog_items_from_query_context_items`);
`matchItemPatterns names` returns the surface texts of all matches of the
item patterns built from `names` (used by `_match_item_patterns`);
`matchPronoun t` returns the first pronoun surface text inside the span
text `t` (`_match_pronoun`); `matchPronouns` lists the pronoun surface
texts of the utterance document in order (`_match_pronouns`). -/
structure Linguistics where
  pluralize : String → String
  itemMatches : String → Bool
  matchItemPatterns : List String → List String
  matchPronoun : String → Option String
  matchPronouns : List String

/-- Replacement step for the empty pattern: Python
`s.replace("", new)` intersperses `new` before every character and at the
end. -/
def emptyPatternReplace (n : List Char) : List Char → List Char
  | [] => n
  | c :: cs => n ++ c :: emptyPatternReplace n cs

/-- Fuel-indexed scan of Python `str.replace` for a non-empty pattern:
scan left to right, replace every leftmost non-overlapping occurrence of
`old` by `new`.  With `fuel ≥ length of the scanned list` the fuel never
runs out. -/
def replaceAux (old new : List Char) : Nat → List Char → List Char
  | _, [] => []
  | 0, s => s
  | fuel + 1, c :: cs =>
    if List.isPrefixOf old (c :: cs) then
      new ++ replaceAux old new fuel (List.drop (old.length - 1) cs)
    else
      c :: replaceAux old new fuel cs

/-- Python `s.replace(old, new)` (all occurrences, leftmost,
non-overlapping), as used by `_resolve_query_context`. -/
def pyReplace (s old new : String) : String :=
  if old.data = [] then ⟨emptyPatternReplace new.data s.data⟩
  else ⟨replaceAux old.data new.data s.data.length s.data⟩

/-- Boolean substring test on character lists (used only to state claims
about "the phrase contains ..."). -/
def listContains (p : List Char) : List Char → Bool
  | [] => p.isEmpty
  | c :: cs => List.isPrefixOf p (c :: cs) || listContains p cs

/-- `strContains s p` holds when `p` occurs as a contiguous substring of `s`. -/
def strContains (s p : String) : Bool :=
  listContains p.data s.data

/-- `query_context_items_phrase` (inner function of
`_prepare_dialog_items_from_query_context_items`): renders the phrase for
one item and its values, controlled by the `attribute_reference` and
`presumptive` flags. -/
def queryContextItemsPhrase (attributeReference presumptive : Bool)
    (entityName itemName : String) (itemValues : List String) : String :=
  let itemPhrases := itemValues.map (fun itemValue =>
    let queryContextItemPhrase := String.intercalate " " [itemName, itemValue]
    let itemPhraseTokens :=
      if ¬ attributeReference then ["with", queryContextItemPhrase]
      else [queryContextItemPhrase]
    String.intercalate " " itemPhraseTokens)
  if itemValues.length = 1 then
    let tokens :=
      if presumptive then ["There is a", String.intercalate " or " itemPhrases]
      else [String.intercalate " or " itemPhrases]
    if attributeReference then String.intercalate " " tokens
    else entityName ++ " " ++ String.intercalate " " tokens
  else if attributeReference then String.intercalate " or " itemPhrases
  else entityName ++ " " ++ String.intercalate " or " itemPhrases

/-- `_prepare_dialog_item_from_filter_phrase`: the dialog item appended for
a plural query context; the filter phrase, when present and non-empty
(Python truthiness), is parenthesized and space-joined after the
pluralized entity name. -/
def prepareDialogItemFromFilterPhrase (pluralizedEntityName : String)
    (pluralQueryContext : QueryContext) : String :=
  match pluralQueryContext.filterPhrase with
  | none => pluralizedEntityName
  | some filterPhrase =>
    if filterPhrase = "" then pluralizedEntityName
    else String.intercalate " "
      [pluralizedEntityName, "(" ++ filterPhrase ++ ")"]

/-- `_prepare_dialog_items_from_query_context_items`: render a phrase for
every configured item whose pattern matches the utterance document; if no
item matched, render the primary-key items instead.  Returns the list of
dialog items appended by the call. -/
def prepareDialogItemsFromQueryContextItems (L : Linguistics)
    (attributeReference : Bool) (entityName : String)
    (queryContext : QueryContext) (presumptive : Bool) : List String :=
  let matched := queryContext.items.filter (fun it => L.itemMatches it.name)
  if matched.isEmpty then
    queryContext.primaryKeyItems.map (fun it =>
      queryContextItemsPhrase attributeReference presumptive entityName it.name it.values)
  else
    matched.map (fun it =>
      queryContextItemsPhrase attributeReference presumptive entityName it.name it.values)

/-- `_prepare_plural_query_context_phrase`: absent context contributes
nothing; otherwise the entity name is pluralized, the item phrases are
rendered, and the filter-phrase dialog item is appended after them. -/
def preparePluralQueryContextPhrase (L : Linguistics)
    (pluralQueryContext : Option QueryContext)
    (attributeReference presumptive : Bool) : List String :=
  match pluralQueryContext with
  | none => []
  | some qc =>
    let pluralizedEntityName := L.pluralize qc.entityName
    prepareDialogItemsFromQueryContextItems L attributeReference
        pluralizedEntityName qc presumptive
      ++ [prepareDialogItemFromFilterPhrase pluralizedEntityName qc]

/-- `_prepare_singular_query_context_phrase`: absent context contributes
nothing; otherwise the item phrases are rendered with the unpluralized
entity name and no filter-phrase item. -/
def prepareSingularQueryContextPhrase (L : Linguistics)
    (singularQueryContext : Option QueryContext)
    (attributeReference presumptive : Bool) : List String :=
  match singularQueryContext with
  | none => []
  | some qc =>
    prepareDialogItemsFromQueryContextItems L attributeReference
      qc.entityName qc presumptive

/-- `_resolve_query_context`: with no dialog items the utterance is left
unchanged; otherwise the matched span text is replaced (Python
`str.replace`) by the first dialog item. -/
def resolveQueryContext (utterance : String) (dialogItems : List String)
    (matchedText : String) : String :=
  match dialogItems with
  | [] => utterance
  | d :: _ => pyReplace utterance matchedText d

/-- `_COMMON_OBJECT_PRONOUNS` (empty in the source). -/
def COMMON_OBJECT_PRONOUNS : List String := []

/-- `_COMMON_PERSON_PRONOUNS`. -/
def COMMON_PERSON_PRONOUNS : List String := ["you", "your", "yours"]

/-- `_COMMON_PLURAL_PRONOUNS`. -/
def COMMON_PLURAL_PRONOUNS : List String := ["they", "their", "them", "theirs"]

/-- `_COMMON_SINGULAR_PRONOUNS`. -/
def COMMON_SINGULAR_PRONOUNS : List String := ["it", "its"]

/-- `_PLURAL_OBJECT_PRONOUNS` (empty in the source). -/
def PLURAL_OBJECT_PRONOUNS : List String := []

/-- `_PLURAL_PERSON_PRONOUNS`. -/
def PLURAL_PERSON_PRONOUNS : List String := ["our", "ours", "we", "us"]

/-- `_PLURAL_PRONOUNS = set(chain(common plural, plural object, plural person))`. -/
def PLURAL_PRONOUNS : List String :=
  COMMON_PLURAL_PRONOUNS ++ PLURAL_OBJECT_PRONOUNS ++ PLURAL_PERSON_PRONOUNS

/-- `_SINGULAR_OBJECT_PRONOUNS` (empty in the source). -/
def SINGULAR_OBJECT_PRONOUNS : List String := []

/-- `_SINGULAR_PERSON_PRONOUNS`. -/
def SINGULAR_PERSON_PRONOUNS : List String :=
  ["i", "me", "mine", "he", "him", "his", "she", "her", "hers"]

/-- `_SINGULAR_PRONOUNS = set(chain(common singular, singular object, singular person))`. -/
def SINGULAR_PRONOUNS : List String :=
  COMMON_SINGULAR_PRONOUNS ++ SINGULAR_OBJECT_PRONOUNS ++ SINGULAR_PERSON_PRONOUNS

/-- `_recognize_singular_pronouns`: a pronoun outside the singular set (or
an absent pronoun, Python `None not in s`) dispatches nothing; otherwise
the singular-object context is resolved unless the pronoun is in the
singular-person set, then the singular-person context is resolved unless
the pronoun is in the singular-object set.  `_resolve_pronouns` passes the
preparation function positionally, so `presumptive` keeps its default
`False`. -/
def recognizeSingularPronouns (L : Linguistics) (c : CoreferenceContext)
    (utterance : String) (matchedText : String) (pronoun : Option String)
    (attributeReference : Bool) : String :=
  match pronoun with
  | none => utterance
  | some p =>
    if p ∈ SINGULAR_PRONOUNS then
      let u1 :=
        if p ∈ SINGULAR_PERSON_PRONOUNS then utterance
        else resolveQueryContext utterance
          (prepareSingularQueryContextPhrase L c.singularObjectQueryContext
            attributeReference false) matchedText
      if p ∈ SINGULAR_OBJECT_PRONOUNS then u1
      else resolveQueryContext u1
        (prepareSingularQueryContextPhrase L c.singularPersonQueryContext
          attributeReference false) matchedText
    else utterance

/-- `_recognize_plural_pronouns`: the plural analogue of
`recognizeSingularPronouns`, resolving the plural-object context first and
the plural-person context second. -/
def recognizePluralPronouns (L : Linguistics) (c : CoreferenceContext)
    (utterance : String) (matchedText : String) (pronoun : Option String)
    (attributeReference : Bool) : String :=
  match pronoun with
  | none => utterance
  | some p =>
    if p ∈ PLURAL_PRONOUNS then
      let u1 :=
        if p ∈ PLURAL_PERSON_PRONOUNS then utterance
        else resolveQueryContext utterance
          (preparePluralQueryContextPhrase L c.pluralObjectQueryContext
            attributeReference false) matchedText
      if p ∈ PLURAL_OBJECT_PRONOUNS then u1
      else resolveQueryContext u1
        (preparePluralQueryContextPhrase L c.pluralPersonQueryContext
          attributeReference false) matchedText
    else utterance

/-- `_recognize_common_pronouns`: singular dispatch then plural dispatch. -/
def recognizeCommonPronouns (L : Linguistics) (c : CoreferenceContext)
    (utterance : String) (matchedText : String) (pronoun : Option String)
    (attributeReference : Bool) : String :=
  recognizePluralPronouns L c
    (recognizeSingularPronouns L c utterance matchedText pronoun attributeReference)
    matchedText pronoun attributeReference

/-- `_item_names` on one context, as the contribution to the matcher of
`_match_item_patterns` (an absent context or empty item list contributes
no item names). -/
def itemNamesOf (qc : Option QueryContext) : List String :=
  match qc with
  | none => []
  | some q => q.items.map (fun it => it.name)

/-- `_recognize_attribute_references`: every span matched by the item
patterns of the four contexts (in source order: plural object, plural
person, singular object, singular person) is dispatched with the pronoun
found inside it and `attribute_reference=True`. -/
def recognizeAttributeReferences (L : Linguistics) (c : CoreferenceContext)
    (utterance : String) : String :=
  (L.matchItemPatterns
      (itemNamesOf c.pluralObjectQueryContext
        ++ itemNamesOf c.pluralPersonQueryContext
        ++ itemNamesOf c.singularObjectQueryContext
        ++ itemNamesOf c.singularPersonQueryContext)).foldl
    (fun acc matchedText =>
      recognizeCommonPronouns L c acc matchedText (L.matchPronoun matchedText) true)
    utterance

/-- `_recognize_entity_references`: every bare pronoun occurrence is
dispatched with itself as matched text and `attribute_reference=False`. -/
def recognizeEntityReferences (L : Linguistics) (c : CoreferenceContext)
    (utterance : String) : String :=
  L.matchPronouns.foldl
    (fun acc p => recognizeCommonPronouns L c acc p (some p) false)
    utterance

/-- The resolved utterance of one `RuleBasedEnglishCoreferenceRecognizer.recognize`
call with a present context: the attribute-reference pass followed by the
entity-reference pass over the stored utterance. -/
def ruleBasedResolveUtterance (L : Linguistics) (c : CoreferenceContext)
    (utterance : String) : String :=
  recognizeEntityReferences L c (recognizeAttributeReferences L c utterance)

/-- The observable per-instance state of a recognizer:
`self._utterance` and `self._presumptive_reference_text`
(`resolve()` returns the former, `presumptive_reference_text()` the
latter). -/
structure RecognizerState where
  utterance : Option String
  presumptiveReferenceText : Option String

/-- `AbstractCoreferenceRecognizer.__init__`: both fields start as `None`. -/
def initRecognizerState : RecognizerState :=
  { utterance := none, presumptiveReferenceText := none }

/-- `RuleBasedEnglishCoreferenceRecognizer.recognize` as a state step:
the utterance field is always re-assigned; with an absent context the call
returns immediately, otherwise both passes run; the presumptive-reference
field is never assigned. -/
def ruleBasedRecognize (L : Linguistics) (s : RecognizerState)
    (ctx : Option CoreferenceContext) (utterance : String) : RecognizerState :=
  match ctx with
  | none => { s with utterance := some utterance }
  | some c => { s with utterance := some (ruleBasedResolveUtterance L c utterance) }

/-- `IndonesianCoreferenceRecognizer.recognize` (the pass-through variant):
stores the utterance verbatim, ignoring the context. -/
def indonesianRecognize (s : RecognizerState)
    (_ctx : Option CoreferenceContext) (utterance : String) : RecognizerState :=
  { s with utterance := some utterance }

/-- A recognizer as seen by the orchestrator loop: one `recognize` call
with a present context followed by `resolve()` and
`presumptive_reference_text()`, i.e. a resolved utterance and an optional
presumptive text per (context, utterance) pair. -/
structure SubRecognizer where
  run : CoreferenceContext → String → String × Option String

/-- `MultiLanguageCoreferenceRecognizer.recognize`: the utterance is stored,
an absent context returns immediately; otherwise each configured
recognizer is fed the context and the utterance resolved so far, the
orchestrator records each resolved utterance, collects the truthy
(non-`None` and non-empty) presumptive texts, and finally stores their
single-space join. -/
def multiLanguageRecognize (recognizers : List SubRecognizer)
    (s : RecognizerState) (ctx : Option CoreferenceContext)
    (utterance : String) : RecognizerState :=
  match ctx with
  | none => { s with utterance := some utterance }
  | some c =>
    let step := fun (acc : String × List String) (r : SubRecognizer) =>
      let res := r.run c acc.1
      (res.1,
        match res.2 with
        | none => acc.2
        | some t => if t = "" then acc.2 else acc.2 ++ [t])
    let final := recognizers.foldl step (utterance, [])
    { utterance := some final.1,
      presumptiveReferenceText := some (String.intercalate " " final.2) }

/-- The chained run of a recognizer list on one context and utterance:
the first recognizer receives the original utterance, each next recognizer
the previous resolved text; the first component is the cumulative resolved
text, the second the presumptive texts reported along the way, in order. -/
def chainRun (recognizers : List SubRecognizer) (c : CoreferenceContext) (u : String) :
    String × List (Option String) :=
  match recognizers with
  | [] => (u, [])
  | r :: rs =>
    let res := r.run c u
    let rest := chainRun rs c res.1
    (rest.1, res.2 :: rest.2)

/-- The four query-context roles a pronoun dispatch can target. -/
inductive ContextRole where
  | singularObject
  | singularPerson
  | pluralObject
  | pluralPerson
deriving DecidableEq

/-- The dispatch trace of `_recognize_singular_pronouns`: which roles are
resolved for a classified pronoun, in source order (object first). -/
def singularDispatches (pronoun : Option String) : List ContextRole :=
  match pronoun with
  | none => []
  | some p =>
    if p ∈ SINGULAR_PRONOUNS then
      (if p ∈ SINGULAR_PERSON_PRONOUNS then [] else [ContextRole.singularObject])
        ++ (if p ∈ SINGULAR_OBJECT_PRONOUNS then [] else [ContextRole.singularPerson])
    else []

/-- The dispatch trace of `_recognize_plural_pronouns`. -/
def pluralDispatches (pronoun : Option String) : List ContextRole :=
  match pronoun with
  | none => []
  | some p =>
    if p ∈ PLURAL_PRONOUNS then
      (if p ∈ PLURAL_PERSON_PRONOUNS then [] else [ContextRole.pluralObject])
        ++ (if p ∈ PLURAL_OBJECT_PRONOUNS then [] else [ContextRole.pluralPerson])
    else []

/-- The dispatch trace of `_recognize_common_pronouns`: the singular
dispatches followed by the plural ones. -/
def commonDispatches (pronoun : Option String) : List ContextRole :=
  singularDispatches pronoun ++ pluralDispatches pronoun

/-- The dialog items prepared for one dispatched role (`_resolve_pronouns`
passes the preparation function positionally, so `presumptive` stays
`False`). -/
def rolePhrase (L : Linguistics) (c : CoreferenceContext) (attributeReference : Bool) :
    ContextRole → List String
  | ContextRole.singularObject =>
    prepareSingularQueryContextPhrase L c.singularObjectQueryContext attributeReference false
  | ContextRole.singularPerson =>
    prepareSingularQueryContextPhrase L c.singularPersonQueryContext attributeReference false
  | ContextRole.pluralObject =>
    preparePluralQueryContextPhrase L c.pluralObjectQueryContext attributeReference false
  | ContextRole.pluralPerson =>
    preparePluralQueryContextPhrase L c.pluralPersonQueryContext attributeReference false

/-- One dispatched resolution: prepare the role's dialog items and resolve
the matched span against them. -/
def resolveRole (L : Linguistics) (c : CoreferenceContext) (utterance matchedText : String)
    (attributeReference : Bool) (r : ContextRole) : String :=
  resolveQueryContext utterance (rolePhrase L c attributeReference r) matchedText

/-- Oracle for the utterance document of "Show them": no item pattern
matches (the only configured context has no items), the only pronoun span
is "them". -/
def oracleShowThem : Linguistics :=
  { pluralize := fun s => s ++ "s"
    itemMatches := fun _ => false
    matchItemPatterns := fun _ => []
    matchPronoun := fun t => if t = "them" then some "them" else none
    matchPronouns := ["them"] }

/-- The plural-object query context of the plural-with-filter scenario:
entity "order", no items, primary key id with values 1 and 2, filter
phrase "over $50". -/
def orderQueryContext : QueryContext :=
  { entityName := "order", items := [],
    primaryKeyItems := [{ name := "id", values := ["1", "2"] }],
    filterPhrase := some "over $50" }

/-- The coreference context of the plural-with-filter scenario. -/
def showThemContext : CoreferenceContext :=
  { singularPersonQueryContext := none
    singularObjectQueryContext := none
    pluralPersonQueryContext := none
    pluralObjectQueryContext := some orderQueryContext }

/-- Oracle for the utterance document of "Take it": no item pattern
matches, the only pronoun span is "it". -/
def oracleTakeIt : Linguistics :=
  { pluralize := fun s => s ++ "s"
    itemMatches := fun _ => false
    matchItemPatterns := fun _ => []
    matchPronoun := fun _ => none
    matchPronouns := ["it"] }

/-- A singular-object query context whose only primary-key item has an
empty values sequence. -/
def emptyValuesQueryContext : QueryContext :=
  { entityName := "order", items := [],
    primaryKeyItems := [{ name := "id", values := [] }],
    filterPhrase := none }

/-- The coreference context of the empty-values scenario. -/
def takeItContext : CoreferenceContext :=
  { singularPersonQueryContext := none
    singularObjectQueryContext := some emptyValuesQueryContext
    pluralPersonQueryContext := none
    pluralObjectQueryContext := none }

/-- A coreference context with all four roles absent. -/
def emptyCoreferenceContext : CoreferenceContext :=
  { singularPersonQueryContext := none
    singularObjectQueryContext := none
    pluralPersonQueryContext := none
    pluralObjectQueryContext := none }

/-- A recognizer that leaves the utterance unchanged and reports the empty
string as presumptive text (as a nested orchestrator does after a run that
collected no texts). -/
def subRecognizerEmptyText : SubRecognizer :=
  { run := fun _ u => (u, some "") }

/-- A recognizer that appends "!" to the utterance and reports presumptive
text "A". -/
def subRecognizerA : SubRecognizer :=
  { run := fun _ u => (u ++ "!", some "A") }

/-- A recognizer that leaves the utterance unchanged and reports
presumptive text "P". -/
def subRecognizerP : SubRecognizer :=
  { run := fun _ u => (u, some "P") }

/-- The orchestrator loop equals the chained run, collecting the truthy
presumptive texts onto the accumulator. -/
theorem multiLanguage_fold_eq (c : CoreferenceContext) :
    ∀ (rs : List SubRecognizer) (u : String) (acc : List String),
      rs.foldl
        (fun (acc : String × List String) (r : SubRecognizer) =>
          let res := r.run c acc.1
          (res.1,
            match res.2 with
            | none => acc.2
            | some t => if t = "" then acc.2 else acc.2 ++ [t]))
        (u, acc)
      = ((chainRun rs c u).1,
          acc ++ ((chainRun rs c u).2.filterMap id).filter (fun t => t != "")) := by
  intro rs
  induction rs with
  | nil => intro u acc; simp [chainRun]
  | cons r rs ih =>
    intro u acc
    simp only [List.foldl_cons, chainRun]
    cases hres : r.run c u with
    | mk resolved ptext =>
      cases ptext with
      | none => simp [ih, hres]
      | some t =>
        by_cases ht : t = "" <;> simp [ih, hres, ht]

/-- Appending a recognizer to the chain feeds it the cumulative resolved
text and makes its resolved text the final one. -/
theorem chainRun_append_last (rs : List SubRecognizer) (r : SubRecognizer)
    (c : CoreferenceContext) (u : String) :
    (chainRun (rs ++ [r]) c u).1 = (r.run c (chainRun rs c u).1).1 := by
  induction rs generalizing u with
  | nil => simp [chainRun]
  | cons r0 rs ih => simp [chainRun, ih]

/-- A `RuleBasedEnglishCoreferenceRecognizer.recognize` call never assigns
the presumptive-reference field. -/
theorem ruleBasedRecognize_preserves_presumptive (L : Linguistics)
    (s : RecognizerState) (ctx : Option CoreferenceContext) (u : String) :
    (ruleBasedRecognize L s ctx u).presumptiveReferenceText
      = s.presumptiveReferenceText := by
  cases ctx <;> rfl

/-- Replacing a single-character pattern replaces every occurrence of that
character (with enough fuel, the scan is a fold over the characters). -/
theorem replaceAux_singleton (c : Char) (n : List Char) :
    ∀ (s : List Char) (fuel : Nat), s.length ≤ fuel →
      replaceAux [c] n fuel s
        = s.foldr (fun a acc => if a = c then n ++ acc else a :: acc) [] := by
  intro s
  induction s with
  | nil => intro fuel _; cases fuel <;> rfl
  | cons a as ih =>
    intro fuel hlen
    cases fuel with
    | zero => simp at hlen
    | succ f =>
      have has : as.length ≤ f := by simpa using hlen
      by_cases hac : a = c
      · simp [replaceAux, List.isPrefixOf_cons₂, hac, ih f has]
      · have hba : (c == a) = false := by
          simp [beq_iff_eq]
          exact fun h => hac h.symm
        simp [replaceAux, List.isPrefixOf_cons₂, hba, hac, ih f has]

/-- A word of the plural-person pronoun set is not in the common plural
set. -/
theorem mem_plural_person_not_common (p : String)
    (h : p ∈ PLURAL_PERSON_PRONOUNS) : p ∉ COMMON_PLURAL_PRONOUNS := by
  fin_cases h <;> decide

/-- A word of the singular-person pronoun set is not in the common
singular set. -/
theorem mem_singular_person_not_common (p : String)
    (h : p ∈ SINGULAR_PERSON_PRONOUNS) : p ∉ COMMON_SINGULAR_PRONOUNS := by
  fin_cases h <;> decide

/-- The plural-object pronoun set is empty. -/
theorem not_mem_plural_object (p : String) : p ∉ PLURAL_OBJECT_PRONOUNS := by
  simp [PLURAL_OBJECT_PRONOUNS]

/-- The singular-object pronoun set is empty. -/
theorem not_mem_singular_object (p : String) : p ∉ SINGULAR_OBJECT_PRONOUNS := by
  simp [SINGULAR_OBJECT_PRONOUNS]

/-- The singular and plural pronoun sets are disjoint. -/
theorem mem_singular_not_mem_plural (p : String)
    (h : p ∈ SINGULAR_PRONOUNS) : p ∉ PLURAL_PRONOUNS := by
  fin_cases h <;> decide

/-- The common-pronoun dispatch of the source resolves each role exactly
under the code-level membership conditions. -/
theorem commonDispatches_mem_iff (p : String) :
    (ContextRole.pluralObject ∈ commonDispatches (some p) ↔
        p ∈ PLURAL_PRONOUNS ∧ p ∉ PLURAL_PERSON_PRONOUNS) ∧
    (ContextRole.pluralPerson ∈ commonDispatches (some p) ↔
        p ∈ PLURAL_PRONOUNS ∧ p ∉ PLURAL_OBJECT_PRONOUNS) ∧
    (ContextRole.singularObject ∈ commonDispatches (some p) ↔
        p ∈ SINGULAR_PRONOUNS ∧ p ∉ SINGULAR_PERSON_PRONOUNS) ∧
    (ContextRole.singularPerson ∈ commonDispatches (some p) ↔
        p ∈ SINGULAR_PRONOUNS ∧ p ∉ SINGULAR_OBJECT_PRONOUNS) := by
  by_cases h1 : p ∈ SINGULAR_PRONOUNS <;>
  by_cases h2 : p ∈ SINGULAR_PERSON_PRONOUNS <;>
  by_cases h3 : p ∈ SINGULAR_OBJECT_PRONOUNS <;>
  by_cases h4 : p ∈ PLURAL_PRONOUNS <;>
  by_cases h5 : p ∈ PLURAL_PERSON_PRONOUNS <;>
  by_cases h6 : p ∈ PLURAL_OBJECT_PRONOUNS <;>
  simp [commonDispatches, singularDispatches, pluralDispatches, h1, h2, h3, h4, h5, h6]

/-- The textual effect of `_recognize_common_pronouns` is the fold of the
dispatched resolutions over the dispatch trace. -/
theorem recognizeCommonPronouns_eq_dispatch_fold (L : Linguistics)
    (c : CoreferenceContext) (u mt : String) (p : Option String) (a : Bool) :
    recognizeCommonPronouns L c u mt p a
      = (commonDispatches p).foldl (fun acc r => resolveRole L c acc mt a r) u := by
  cases p with
  | none => rfl
  | some p =>
    by_cases h1 : p ∈ SINGULAR_PRONOUNS <;>
    by_cases h2 : p ∈ SINGULAR_PERSON_PRONOUNS <;>
    by_cases h3 : p ∈ SINGULAR_OBJECT_PRONOUNS <;>
    by_cases h4 : p ∈ PLURAL_PRONOUNS <;>
    by_cases h5 : p ∈ PLURAL_PERSON_PRONOUNS <;>
    by_cases h6 : p ∈ PLURAL_OBJECT_PRONOUNS <;>
    simp [recognizeCommonPronouns, recognizeSingularPronouns, recognizePluralPronouns,
      commonDispatches, singularDispatches, pluralDispatches, resolveRole, rolePhrase,
      h1, h2, h3, h4, h5, h6]

/-- A pronoun occurrence drives at most two resolutions. -/
theorem commonDispatches_length_le_two (p : String) :
    (commonDispatches (some p)).length ≤ 2 := by
  by_cases hs : p ∈ SINGULAR_PRONOUNS
  · have hp : p ∉ PLURAL_PRONOUNS := mem_singular_not_mem_plural p hs
    by_cases h2 : p ∈ SINGULAR_PERSON_PRONOUNS <;>
    by_cases h3 : p ∈ SINGULAR_OBJECT_PRONOUNS <;>
    simp [commonDispatches, singularDispatches, pluralDispatches, hs, hp, h2, h3]
  · by_cases hp : p ∈ PLURAL_PRONOUNS <;>
    by_cases h5 : p ∈ PLURAL_PERSON_PRONOUNS <;>
    by_cases h6 : p ∈ PLURAL_OBJECT_PRONOUNS <;>
    simp [commonDispatches, singularDispatches, pluralDispatches, hs, hp, h5, h6]

/-- C1 (counterexample): with recognizers reporting presumptive texts
`some ""` and `some "A"`, the claim predicts the join of the non-none
texts, `" A"`, but the orchestrator filters by Python truthiness and
drops the empty string, yielding `"A"`. -/
theorem orchestrator_presumptive_truthiness_counterexample :
    (chainRun [subRecognizerEmptyText, subRecognizerA]
        emptyCoreferenceContext "u").2.filterMap id = ["", "A"] ∧
    String.intercalate " " ["", "A"] = " A" ∧
    (multiLanguageRecognize [subRecognizerEmptyText, subRecognizerA]
        initRecognizerState (some emptyCoreferenceContext) "u").presumptiveReferenceText
      = some "A" ∧
    ("A" : String) ≠ " A" := by
  refine ⟨rfl, rfl, rfl, by decide⟩

/-- C1 (amended): with a present context the orchestrator threads the
resolved utterance through the recognizers in order, `resolve()` returns
the last recognizer's resolved text on the cumulatively resolved input,
and `presumptiveReferenceText()` is the single-space join of the non-none
AND non-empty presumptive texts, in order. -/
theorem orchestrator_chain_and_presumptive_join (rs : List SubRecognizer)
    (s : RecognizerState) (c : CoreferenceContext) (u : String) :
    (multiLanguageRecognize rs s (some c) u).utterance = some (chainRun rs c u).1 ∧
    (multiLanguageRecognize rs s (some c) u).presumptiveReferenceText
      = some (String.intercalate " "
          (((chainRun rs c u).2.filterMap id).filter (fun t => t != ""))) ∧
    (∀ r : SubRecognizer, (chainRun (rs ++ [r]) c u).1 = (r.run c (chainRun rs c u).1).1) := by
  refine ⟨?_, ?_, fun r => chainRun_append_last rs r c u⟩ <;>
  simp [multiLanguageRecognize, multiLanguage_fold_eq]

/-- C2: a classified pronoun is resolved against the object context of
its cardinality exactly when it is in that cardinality's pronoun set and
not exclusively in the person set, against the person context exactly
when it is not exclusively in the object set, and at most two resolutions
occur per pronoun occurrence ("it" and "they" trigger both dispatches of
their cardinality, "we" only the plural-person one). -/
theorem pronoun_dispatch_rule (p : String) :
    (ContextRole.pluralObject ∈ commonDispatches (some p) ↔
        p ∈ PLURAL_PRONOUNS ∧
          ¬ (p ∈ PLURAL_PERSON_PRONOUNS ∧ p ∉ COMMON_PLURAL_PRONOUNS ∧
              p ∉ PLURAL_OBJECT_PRONOUNS)) ∧
    (ContextRole.pluralPerson ∈ commonDispatches (some p) ↔
        p ∈ PLURAL_PRONOUNS ∧
          ¬ (p ∈ PLURAL_OBJECT_PRONOUNS ∧ p ∉ COMMON_PLURAL_PRONOUNS ∧
              p ∉ PLURAL_PERSON_PRONOUNS)) ∧
    (ContextRole.singularObject ∈ commonDispatches (some p) ↔
        p ∈ SINGULAR_PRONOUNS ∧
          ¬ (p ∈ SINGULAR_PERSON_PRONOUNS ∧ p ∉ COMMON_SINGULAR_PRONOUNS ∧
              p ∉ SINGULAR_OBJECT_PRONOUNS)) ∧
    (ContextRole.singularPerson ∈ commonDispatches (some p) ↔
        p ∈ SINGULAR_PRONOUNS ∧
          ¬ (p ∈ SINGULAR_OBJECT_PRONOUNS ∧ p ∉ COMMON_SINGULAR_PRONOUNS ∧
              p ∉ SINGULAR_PERSON_PRONOUNS)) ∧
    (commonDispatches (some p)).length ≤ 2 ∧
    commonDispatches (some "it") = [ContextRole.singularObject, ContextRole.singularPerson] ∧
    commonDispatches (some "they") = [ContextRole.pluralObject, ContextRole.pluralPerson] ∧
    commonDispatches (some "we") = [ContextRole.pluralPerson] := by
  obtain ⟨hpo, hpp, hso, hsp⟩ := commonDispatches_mem_iff p
  refine ⟨?_, ?_, ?_, ?_, commonDispatches_length_le_two p, by decide, by decide, by decide⟩
  · rw [hpo]
    constructor
    · rintro ⟨m1, m2⟩
      exact ⟨m1, fun hx => m2 hx.1⟩
    · rintro ⟨m1, m2⟩
      exact ⟨m1, fun hper =>
        m2 ⟨hper, mem_plural_person_not_common p hper, not_mem_plural_object p⟩⟩
  · rw [hpp]
    constructor
    · rintro ⟨m1, _⟩
      exact ⟨m1, fun hx => not_mem_plural_object p hx.1⟩
    · rintro ⟨m1, _⟩
      exact ⟨m1, not_mem_plural_object p⟩
  · rw [hso]
    constructor
    · rintro ⟨m1, m2⟩
      exact ⟨m1, fun hx => m2 hx.1⟩
    · rintro ⟨m1, m2⟩
      exact ⟨m1, fun hper =>
        m2 ⟨hper, mem_singular_person_not_common p hper, not_mem_singular_object p⟩⟩
  · rw [hsp]
    constructor
    · rintro ⟨m1, _⟩
      exact ⟨m1, fun hx => not_mem_singular_object p hx.1⟩
    · rintro ⟨m1, _⟩
      exact ⟨m1, not_mem_singular_object p⟩

/-- C3 (counterexample): in the plural-with-filter scenario the
replacement phrase is "orders with id 1 or with id 2": it contains the
pluralized entity name but neither "id 1 or id 2" nor the parenthesized
filter phrase "(over $50)", which the claim requires. -/
theorem plural_filter_phrase_counterexample :
    ruleBasedResolveUtterance oracleShowThem showThemContext "Show them"
      = "Show orders with id 1 or with id 2" ∧
    strContains (ruleBasedResolveUtterance oracleShowThem showThemContext "Show them")
      "orders" = true ∧
    strContains (ruleBasedResolveUtterance oracleShowThem showThemContext "Show them")
      "id 1 or id 2" = false ∧
    strContains (ruleBasedResolveUtterance oracleShowThem showThemContext "Show them")
      "(over $50)" = false := by
  refine ⟨by decide, by decide, by decide, by decide⟩

/-- C3 (amended): the filter-phrase dialog item (pluralized entity name
followed by the parenthesized filter phrase) is appended as the LAST
dialog item, but only the first dialog item becomes the replacement
phrase; in the scenario the dialog items are
["orders with id 1 or with id 2", "orders (over $50)"] and the
replacement uses the first of them. -/
theorem plural_filter_phrase_dialog_items (L : Linguistics) (q : QueryContext)
    (a pr : Bool) (fp : String) (h1 : q.filterPhrase = some fp) (h2 : fp ≠ "") :
    (preparePluralQueryContextPhrase L (some q) a pr).getLast?
      = some (L.pluralize q.entityName ++ " " ++ "(" ++ fp ++ ")") ∧
    preparePluralQueryContextPhrase oracleShowThem (some orderQueryContext) false false
      = ["orders with id 1 or with id 2", "orders (over $50)"] ∧
    ruleBasedResolveUtterance oracleShowThem showThemContext "Show them"
      = pyReplace "Show them" "them" "orders with id 1 or with id 2" := by
  refine ⟨?_, by decide, by decide⟩
  have hlast : (preparePluralQueryContextPhrase L (some q) a pr).getLast?
      = some (prepareDialogItemFromFilterPhrase (L.pluralize q.entityName) q) := by
    simp [preparePluralQueryContextPhrase, List.getLast?_concat]
  rw [hlast]
  congr 1
  apply String.ext
  simp [prepareDialogItemFromFilterPhrase, h1, h2, String.intercalate, String.intercalate.go]

/-- C3 (witness for the amended theorem): the plural-with-filter scenario
instantiates the hypotheses. -/
theorem plural_filter_phrase_dialog_items_witness :
    (preparePluralQueryContextPhrase oracleShowThem (some orderQueryContext) false false).getLast?
      = some (oracleShowThem.pluralize orderQueryContext.entityName
          ++ " " ++ "(" ++ "over $50" ++ ")") :=
  (plural_filter_phrase_dialog_items oracleShowThem orderQueryContext false false
    "over $50" rfl (by decide)).1

/-- C4 (counterexample): a dispatch with matched span "them" on the
utterance "them and them" replaces BOTH occurrences, not only the first
(the claim predicts "X and them"). -/
theorem replace_first_occurrence_counterexample :
    resolveQueryContext "them and them" ["X"] "them" = "X and X" ∧
    ("X and X" : String) ≠ "X and them" := by
  refine ⟨by decide, by decide⟩

/-- C4 (amended): a dispatch with dialog items replaces via Python
`str.replace`, i.e. EVERY leftmost non-overlapping occurrence of the
matched span is replaced by the first dialog item, not only the first
occurrence; for a single-character span the scan replaces each matching
character. -/
theorem resolve_query_context_replaces_all_occurrences (u m d : String)
    (ds : List String) (c : Char) (h : m.data = [c]) :
    resolveQueryContext u (d :: ds) m = pyReplace u m d ∧
    resolveQueryContext u [] m = u ∧
    (resolveQueryContext u (d :: ds) m).data
      = u.data.foldr (fun a acc => if a = c then d.data ++ acc else a :: acc) [] := by
  refine ⟨rfl, rfl, ?_⟩
  simp only [resolveQueryContext, pyReplace, h]
  exact replaceAux_singleton c d.data u.data u.length (by simp)

/-- C4 (witness for the amended theorem): replacing "," by ";" in
"a,b,a" replaces both commas. -/
theorem resolve_query_context_replaces_all_occurrences_witness :
    (resolveQueryContext "a,b,a" [";"] ",").data
      = "a,b,a".data.foldr
          (fun a acc => if a = ',' then ";".data ++ acc else a :: acc) [] :=
  (resolve_query_context_replaces_all_occurrences "a,b,a" "," ";" [] ',' rfl).2.2

/-- C5 (counterexample): with `presumptive` true, `attributeReference`
false and one item/value pair, the phrase is
"product There is a with color red": it does NOT start with "There is a"
and the entity-name prefix is NOT dropped. -/
theorem presumptive_entity_prefix_counterexample :
    queryContextItemsPhrase false true "product" "color" ["red"]
      = "product There is a with color red" ∧
    List.isPrefixOf "There is a".data
      (queryContextItemsPhrase false true "product" "color" ["red"]).data = false ∧
    strContains (queryContextItemsPhrase false true "product" "color" ["red"])
      "product" = true := by
  refine ⟨by decide, by decide, by decide⟩

/-- C5 (amended): with `presumptive` true and exactly one item/value pair,
the phrase starts with "There is a" and omits the entity name only when
`attributeReference` is also true; when `attributeReference` is false the
entity name is still prefixed, in front of "There is a". -/
theorem presumptive_phrase_forms (e i v : String) :
    queryContextItemsPhrase true true e i [v] = "There is a " ++ i ++ " " ++ v ∧
    queryContextItemsPhrase false true e i [v]
      = e ++ " There is a with " ++ i ++ " " ++ v := by
  constructor <;>
  (apply String.ext;
   simp [queryContextItemsPhrase, String.intercalate, String.intercalate.go])

/-- C6 (counterexample): with `attributeReference` false and two
item/value pairs the phrase is "orders with id 1 or with id 2": the
"with" preposition is repeated before each alternative rather than
omitted. -/
theorem with_preposition_repeated_counterexample :
    queryContextItemsPhrase false false "orders" "id" ["1", "2"]
      = "orders with id 1 or with id 2" ∧
    queryContextItemsPhrase false false "orders" "id" ["1", "2"]
      ≠ "orders id 1 or id 2" ∧
    strContains (queryContextItemsPhrase false false "orders" "id" ["1", "2"])
      " or with " = true := by
  refine ⟨by decide, by decide, by decide⟩

/-- C6 (amended): with `attributeReference` false the phrase is prefixed
by the entity name and EVERY item/value alternative carries the "with"
preposition, the alternatives separated by " or ". -/
theorem with_preposition_phrase_forms (e i v v₁ v₂ : String) :
    queryContextItemsPhrase false false e i [v] = e ++ " with " ++ i ++ " " ++ v ∧
    queryContextItemsPhrase false false e i [v₁, v₂]
      = e ++ " with " ++ i ++ " " ++ v₁ ++ " or with " ++ i ++ " " ++ v₂ := by
  constructor <;>
  (apply String.ext;
   simp [queryContextItemsPhrase, String.intercalate, String.intercalate.go])

/-- C7 (counterexample): an item with an empty values sequence is NOT
skipped: it contributes the degenerate fragment "order " (bare entity
name with trailing separator) as a dialog item, which becomes the
replacement text, resolving "Take it" to "Take order ". -/
theorem empty_values_item_counterexample :
    prepareSingularQueryContextPhrase oracleTakeIt (some emptyValuesQueryContext)
      false false = ["order "] ∧
    ruleBasedResolveUtterance oracleTakeIt takeItContext "Take it" = "Take order " ∧
    ("Take order " : String) ≠ "Take it" := by
  refine ⟨by decide, by decide, by decide⟩

/-- C7 (amended): an item with an empty values sequence contributes a
fragment without raising: the empty string when `attributeReference` is
true, and the entity name followed by a trailing space when it is
false. -/
theorem empty_values_item_fragment (pr : Bool) (e i : String) :
    queryContextItemsPhrase true pr e i [] = "" ∧
    queryContextItemsPhrase false pr e i [] = e ++ " " := by
  constructor <;>
  (apply String.ext;
   simp [queryContextItemsPhrase, String.intercalate, String.intercalate.go])

/-- C8: every recognizer variant called with an absent coreference
context stores the utterance unchanged, so `resolve()` returns exactly
the input utterance. -/
theorem absent_context_pass_through (L : Linguistics) (rs : List SubRecognizer)
    (s₁ s₂ s₃ : RecognizerState) (u : String) :
    (ruleBasedRecognize L s₁ none u).utterance = some u ∧
    (indonesianRecognize s₂ none u).utterance = some u ∧
    (multiLanguageRecognize rs s₃ none u).utterance = some u :=
  ⟨rfl, rfl, rfl⟩

/-- C9 (counterexample): after a successful orchestrator call that set
presumptive text "P", a following `recognize(none, ...)` call still
returns "P" from `presumptiveReferenceText()`, while the same call from a
fresh instance returns none: the presumptive state is NOT re-set and the
result does not depend only on the last call's arguments. -/
theorem orchestrator_stale_presumptive_counterexample :
    (multiLanguageRecognize [subRecognizerP]
        (multiLanguageRecognize [subRecognizerP] initRecognizerState
          (some emptyCoreferenceContext) "previous utterance")
        none "next utterance").presumptiveReferenceText = some "P" ∧
    (multiLanguageRecognize [subRecognizerP] initRecognizerState
        none "next utterance").presumptiveReferenceText = none ∧
    (some "P" : Option String) ≠ none := by
  refine ⟨rfl, rfl, by decide⟩

/-- C9 (amended): the utterance field is re-set at the start of every
orchestrator `recognize` call and a call with a present context is
independent of prior state, but a call with an absent context returns
before touching the presumptive-reference field, which therefore retains
the previous call's value. -/
theorem orchestrator_state_reset (rs : List SubRecognizer)
    (s s₂ : RecognizerState) (u : String) (c : CoreferenceContext) :
    (multiLanguageRecognize rs s none u).utterance = some u ∧
    (multiLanguageRecognize rs s none u).presumptiveReferenceText
      = s.presumptiveReferenceText ∧
    multiLanguageRecognize rs s (some c) u = multiLanguageRecognize rs s₂ (some c) u :=
  ⟨rfl, rfl, rfl⟩

/-- C10: the rule-based English recognizer never assigns the
presumptive-reference field: it is none after construction and stays none
after any sequence of `recognize` calls. -/
theorem rule_based_presumptive_always_none :
    initRecognizerState.presumptiveReferenceText = none ∧
    ∀ (calls : List (Linguistics × Option CoreferenceContext × String)),
      (calls.foldl
        (fun s call => ruleBasedRecognize call.1 s call.2.1 call.2.2)
        initRecognizerState).presumptiveReferenceText = none := by
  refine ⟨rfl, ?_⟩
  have hfold : ∀ (calls : List (Linguistics × Option CoreferenceContext × String))
      (s : RecognizerState),
      (calls.foldl (fun s call => ruleBasedRecognize call.1 s call.2.1 call.2.2)
        s).presumptiveReferenceText = s.presumptiveReferenceText := by
    intro calls
    induction calls with
    | nil => intro s; rfl
    | cons hd tl ih =>
      intro s
      rw [List.foldl_cons, ih, ruleBasedRecognize_preserves_presumptive]
  intro calls
  exact hfold calls initRecognizerState

end CoreferenceMatcher
